import Mathlib

/-!
Shallow embedding of the terrapwner Terraform provider's data-source Read
logic, together with theorems checking the natural-language specification
against it.

Each data source's `Read` method is embedded as a pure Lean function.  The
effectful collaborators (command executor, HTTP client, resolver, dialer,
filesystem) are passed in as explicit oracle values describing the outcome
the Go call would have produced; the embedding reproduces, from the Go
source, how `Read` branches on those outcomes, which framework diagnostics
it appends, and which state (if any) it saves.

Terraform Plugin Framework `types.String` / `types.Int64` / `types.Bool`
values distinguish null from set; they are embedded as `Option` fields.
`Int` stands for Go `int`/`int64` (no overflow is relevant anywhere here).
-/

set_option autoImplicit false

namespace Terrapwner

/-- Severity of a Terraform Plugin Framework diagnostic
(`AddError` appends an error, `AddWarning` a warning). -/
inductive Severity where
  | error
  | warning
deriving DecidableEq

/-- A framework diagnostic: severity, summary, and detail string. -/
structure Diag where
  severity : Severity
  summary : String
  detail : String
deriving DecidableEq

/-- Whether a diagnostic is an error (mirrors `diag.SeverityError`). -/
def Diag.isError (d : Diag) : Bool :=
  match d.severity with
  | Severity.error => true
  | Severity.warning => false

/-- `resp.Diagnostics.HasError()` over a list of appended diagnostics. -/
def hasError (ds : List Diag) : Bool :=
  ds.any Diag.isError

/-- The outcome of one `Read` call: the diagnostics appended to
`resp.Diagnostics` and the state saved by `resp.State.Set` (none when
`Read` returned before saving state). -/
structure ReadOutcome (σ : Type) where
  diags : List Diag
  state : Option σ
deriving DecidableEq

/-! ### utils.Execute (command executor collaborator)

`utils.Execute` itself lives outside the embedded slice; `Read` only
branches on its `(result, err)` outcome, which is supplied as an oracle. -/

/-- `utils.ExecResult`: stdout, stderr and exit code of an executed command. -/
structure ExecResult where
  stdout : String
  stderr : String
  exitCode : Int
deriving DecidableEq

/-- Outcome of a `utils.Execute` call: a Go error (its message) or a result. -/
inductive ExecOutcome where
  | fail (msg : String)
  | ok (r : ExecResult)
deriving DecidableEq

/-- A call made to `utils.Execute`: executable name, arguments, timeout in
seconds.  `Read` embeddings return the list of such calls they issue, so
"no command was executed" is expressible. -/
structure ExecCall where
  name : String
  args : List String
  timeoutSecs : Int
deriving DecidableEq

/-! ### terrapwner_local_exec -/

/-- `defaultCommandTimeout` (30 seconds), as its second count. -/
def defaultCommandTimeoutSecs : Int := 30

/-- Configuration attributes of `terrapwner_local_exec`
(`TerrapwnerLocalExecDataSourceModel`, input side).  Optional attributes
are `none` when null in the Terraform config. -/
structure LocalExecConfig where
  command : List String
  timeout : Option Int
  expectSuccess : Option Bool
  failOnError : Option Bool
deriving DecidableEq

/-- Computed attributes of `terrapwner_local_exec` as saved to state.
Fields never assigned before `resp.State.Set` stay null (`none`). -/
structure LocalExecState where
  success : Option Bool
  stdout : Option String
  stderr : Option String
  exitCode : Option Int
  failReason : Option String
  durationMs : Option Int
deriving DecidableEq

/-- `TerrapwnerLocalExecDataSource.Read`.  `exec` is the outcome of the
single `utils.Execute` call (consulted only if one is made); `durMs` is
the measured wall-clock duration.  Returns the read outcome and the list
of `utils.Execute` calls issued. -/
def localExecRead (cfg : LocalExecConfig) (exec : ExecOutcome) (durMs : Int) :
    ReadOutcome LocalExecState × List ExecCall :=
  let timeout := cfg.timeout.getD defaultCommandTimeoutSecs
  let failOnError := cfg.failOnError.getD false
  match cfg.command with
  | [] =>
    (⟨[⟨Severity.error, "Invalid command", "Command list cannot be empty"⟩], none⟩, [])
  | c0 :: rest =>
    let call : ExecCall := ⟨c0, rest, timeout⟩
    match exec with
    | ExecOutcome.fail msg =>
      let failReason := "Failed to execute command: " ++ msg
      if failOnError then
        (⟨[⟨Severity.error, "Command execution failed", failReason⟩], none⟩, [call])
      else
        (⟨[], some ⟨some false, none, none, some (-1), some failReason, some durMs⟩⟩, [call])
    | ExecOutcome.ok r =>
      let success : Bool := r.exitCode == 0
      if !success && failOnError then
        (⟨[⟨Severity.error, "Command failed",
            "Command exited with code " ++ toString r.exitCode ++ ": " ++ r.stderr⟩],
          none⟩, [call])
      else
        (⟨[], some ⟨some success, some r.stdout, some r.stderr, some r.exitCode,
                    some "", some durMs⟩⟩, [call])

/-! ### terrapwner_remote_exec -/

/-- Configuration attributes of `terrapwner_remote_exec`. -/
structure RemoteExecConfig where
  url : String
  interpreter : String
  args : Option (List String)
  expectSuccess : Option Bool
  failOnError : Option Bool
deriving DecidableEq

/-- Computed attributes of `terrapwner_remote_exec` as saved to state. -/
structure RemoteExecState where
  success : Option Bool
  stdout : Option String
  stderr : Option String
  exitCode : Option Int
deriving DecidableEq

/-- Combined outcome of the `downloadScript` and `executeScript` steps of
`TerrapwnerRemoteExecDataSource.Read`: the download fails with an error
message, or it succeeds and execution fails, or both succeed.  Messages
are the `err.Error()` strings observed by `Read`. -/
inductive RemoteOutcome where
  | downloadFail (msg : String)
  | execFail (msg : String)
  | ok (r : ExecResult)
deriving DecidableEq

/-- `TerrapwnerRemoteExecDataSource.Read`. -/
def remoteExecRead (cfg : RemoteExecConfig) (outcome : RemoteOutcome) :
    ReadOutcome RemoteExecState :=
  let failOnError := cfg.failOnError.getD false
  match outcome with
  | RemoteOutcome.downloadFail msg =>
    if failOnError then
      ⟨[⟨Severity.error, "Failed to download script", msg⟩], none⟩
    else
      ⟨[⟨Severity.warning, "Failed to download script", msg⟩],
       some ⟨some false, some "", some msg, some (-1)⟩⟩
  | RemoteOutcome.execFail msg =>
    if failOnError then
      ⟨[⟨Severity.error, "Failed to execute script", msg⟩], none⟩
    else
      ⟨[⟨Severity.warning, "Failed to execute script", msg⟩],
       some ⟨some false, some "", some msg, some (-1)⟩⟩
  | RemoteOutcome.ok r =>
    ⟨[], some ⟨some (r.exitCode == 0), some r.stdout, some r.stderr, some r.exitCode⟩⟩

/-! ### terrapwner_network_probe

The probe helpers (`probeDNS`, `probeTCP`, `probeUDP`, `probeICMP`) call
into the standard library; those calls are recorded as a trace of
`NetOp`s.  A `lookupHost`/`lookupIPAddr` op corresponds to a
`net.DefaultResolver` call, which receives the `context.Context` carrying
the configured timeout; a `dial` op corresponds to a `net.DialTimeout`
call, which takes no context and an explicit timeout argument.  Note every
probe helper in the source returns a nil Go error on every path, so the
`err != nil` branch of `Read` is unreachable and the embedding gives the
helpers no error component. -/

/-- One standard-library network call made by a probe helper, with the
cancellation/timeout information visible at the call site. -/
inductive NetOp where
  | lookupHost (host : String)
  | lookupIPAddr (host : String)
  | dial (network : String) (addr : String) (timeoutSecs : Int)
deriving DecidableEq

/-- Whether the Go call receives the `context.Context` (and hence the
deadline installed on it).  `net.DefaultResolver.LookupHost` and
`LookupIPAddr` take `ctx`; `net.DialTimeout` does not. -/
def NetOp.usesCtx : NetOp → Bool
  | NetOp.lookupHost _ => true
  | NetOp.lookupIPAddr _ => true
  | NetOp.dial _ _ _ => false

/-- The explicit timeout argument passed to the call, when the call takes
one (`net.DialTimeout`); `none` for resolver calls. -/
def NetOp.explicitTimeoutSecs : NetOp → Option Int
  | NetOp.lookupHost _ => none
  | NetOp.lookupIPAddr _ => none
  | NetOp.dial _ _ t => some t

/-- Oracle for the network collaborators: outcomes of resolver lookups and
of `net.DialTimeout`, keyed by network and address. -/
structure NetOracle where
  lookupHost : Except String (List String)
  lookupIPAddr : Except String (List String)
  dial : String → String → Except String Unit

/-- `probeDNS`: resolver lookup; failure is reported in the fail-reason
string, never as a Go error. -/
def probeDNS (o : NetOracle) (host : String) : (Bool × String) × List NetOp :=
  match o.lookupHost with
  | Except.error e =>
    ((false, "DNS resolution failed: " ++ e), [NetOp.lookupHost host])
  | Except.ok _ =>
    ((true, ""), [NetOp.lookupHost host])

/-- `probeTCP`: `net.DialTimeout("tcp", host:port, 5*time.Second)`. -/
def probeTCP (o : NetOracle) (host : String) (port : Int) : (Bool × String) × List NetOp :=
  let addr := host ++ ":" ++ toString port
  match o.dial "tcp" addr with
  | Except.error e =>
    ((false, "TCP connection failed: " ++ e), [NetOp.dial "tcp" addr 5])
  | Except.ok _ =>
    ((true, ""), [NetOp.dial "tcp" addr 5])

/-- `probeUDP`: `net.DialTimeout("udp", host:port, 5*time.Second)`. -/
def probeUDP (o : NetOracle) (host : String) (port : Int) : (Bool × String) × List NetOp :=
  let addr := host ++ ":" ++ toString port
  match o.dial "udp" addr with
  | Except.error e =>
    ((false, "UDP connection failed: " ++ e), [NetOp.dial "udp" addr 5])
  | Except.ok _ =>
    ((true, ""), [NetOp.dial "udp" addr 5])

/-- The per-IP loop of `probeICMP`: `net.DialTimeout("ip4:icmp", ip, 5s)`
for each resolved IP, stopping at the first success. -/
def icmpLoop (o : NetOracle) : List String → (Bool × String) × List NetOp
  | [] => ((false, "ICMP ping failed for all IP addresses"), [])
  | ip :: rest =>
    match o.dial "ip4:icmp" ip with
    | Except.error _ =>
      let r := icmpLoop o rest
      (r.1, NetOp.dial "ip4:icmp" ip 5 :: r.2)
    | Except.ok _ =>
      ((true, ""), [NetOp.dial "ip4:icmp" ip 5])

/-- `probeICMP`: resolve the host (with `ctx`), then try each IP. -/
def probeICMP (o : NetOracle) (host : String) : (Bool × String) × List NetOp :=
  match o.lookupIPAddr with
  | Except.error e =>
    ((false, "Failed to resolve host: " ++ e), [NetOp.lookupIPAddr host])
  | Except.ok ips =>
    if ips = [] then
      ((false, "No IP addresses found"), [NetOp.lookupIPAddr host])
    else
      let r := icmpLoop o ips
      (r.1, NetOp.lookupIPAddr host :: r.2)

/-- Configuration attributes of `terrapwner_network_probe`. -/
structure NetworkProbeConfig where
  type : Option String
  host : Option String
  port : Option Int
  expectSuccess : Option Bool
  timeout : Option Int
deriving DecidableEq

/-- Computed attributes of `terrapwner_network_probe` as saved to state. -/
structure NetworkProbeState where
  success : Option Bool
  failReason : Option String
  durationMs : Option Int
deriving DecidableEq

/-- One dispatch of a probe helper by `Read`'s `switch` statement.
`probeDNS` and `probeICMP` take only the host — the port attribute is not
passed to them. -/
inductive ProbeCall where
  | dns (host : String)
  | tcp (host : String) (port : Int)
  | udp (host : String) (port : Int)
  | icmp (host : String)
deriving DecidableEq

/-- Everything observable about one `TerrapwnerNetworkProbeDataSource.Read`
invocation: its outcome, the probe helpers dispatched, the network calls
they made, and the timeout (seconds) installed on the context via
`context.WithTimeout` (`none` when `Read` returned before creating it). -/
structure ProbeRun where
  outcome : ReadOutcome NetworkProbeState
  calls : List ProbeCall
  ops : List NetOp
  ctxTimeoutSecs : Option Int
deriving DecidableEq

/-- `TerrapwnerNetworkProbeDataSource.Read`.  Note that `expect_success`
is defaulted to true when null (as in the source) but — exactly as in the
source — is never consulted afterwards. -/
def networkProbeRead (cfg : NetworkProbeConfig) (o : NetOracle) (durMs : Int) : ProbeRun :=
  let timeout := cfg.timeout.getD 5
  let typ := cfg.type.getD ""
  let host := cfg.host.getD ""
  if typ = "" then
    ⟨⟨[⟨Severity.error, "Invalid probe type", "type must be specified"⟩], none⟩, [], [], none⟩
  else if host = "" then
    ⟨⟨[⟨Severity.error, "Invalid host", "host must be specified"⟩], none⟩, [], [], none⟩
  else if (typ = "tcp" ∨ typ = "udp") ∧ cfg.port = none then
    ⟨⟨[⟨Severity.error, "Missing port", "port is required for tcp/udp probes"⟩], none⟩,
     [], [], none⟩
  else if (typ = "tcp" ∨ typ = "udp") ∧ (cfg.port.getD 0 < 1 ∨ cfg.port.getD 0 > 65535) then
    ⟨⟨[⟨Severity.error, "Invalid port", "port must be between 1 and 65535"⟩], none⟩,
     [], [], none⟩
  else
    -- `ctx, cancel := context.WithTimeout(ctx, timeout*time.Second)` happens here
    if typ = "dns" then
      let r := probeDNS o host
      ⟨⟨[], some ⟨some r.1.1, some r.1.2, some durMs⟩⟩,
       [ProbeCall.dns host], r.2, some timeout⟩
    else if typ = "tcp" then
      let r := probeTCP o host (cfg.port.getD 0)
      ⟨⟨[], some ⟨some r.1.1, some r.1.2, some durMs⟩⟩,
       [ProbeCall.tcp host (cfg.port.getD 0)], r.2, some timeout⟩
    else if typ = "udp" then
      let r := probeUDP o host (cfg.port.getD 0)
      ⟨⟨[], some ⟨some r.1.1, some r.1.2, some durMs⟩⟩,
       [ProbeCall.udp host (cfg.port.getD 0)], r.2, some timeout⟩
    else if typ = "icmp" then
      let r := probeICMP o host
      ⟨⟨[], some ⟨some r.1.1, some r.1.2, some durMs⟩⟩,
       [ProbeCall.icmp host], r.2, some timeout⟩
    else
      ⟨⟨[⟨Severity.error, "Invalid probe type", "unsupported probe type: " ++ typ⟩], none⟩,
       [], [], some timeout⟩

/-! ### terrapwner_exfil -/

/-- Configuration attributes of `terrapwner_exfil`. -/
structure ExfilConfig where
  content : String
  endpoint : String
  timeout : Option Int
  expectSuccess : Option Bool
deriving DecidableEq

/-- Computed attributes of `terrapwner_exfil` as saved to state. -/
structure ExfilState where
  success : Option Bool
  failReason : Option String
  responseCode : Option Int
deriving DecidableEq

/-- Outcome of reading the body of a received HTTP response
(`io.ReadAll(httpResp.Body)`). -/
inductive BodyOutcome where
  | ok (body : String)
  | fail (msg : String)
deriving DecidableEq

/-- An HTTP response as observed by the exfil `Read`: its status code and
the outcome of reading its body. -/
structure HttpResponse where
  statusCode : Int
  body : BodyOutcome
deriving DecidableEq

/-- Outcome of `client.Do(httpReq)`: a transport error, or a response. -/
inductive HttpOutcome where
  | doFail (msg : String)
  | response (r : HttpResponse)
deriving DecidableEq

/-- Oracle for the exfil `Read`'s collaborators.  `json.Marshal` of the
`{"content": string}` payload cannot fail and is not given an oracle. -/
structure ExfilOracle where
  newRequest : Except String Unit
  http : HttpOutcome

/-- `TerrapwnerExfilDataSource.Read`. -/
def exfilRead (cfg : ExfilConfig) (o : ExfilOracle) : ReadOutcome ExfilState :=
  let expectSuccess := cfg.expectSuccess.getD true
  match o.newRequest with
  | Except.error e =>
    ⟨[⟨Severity.error, "Request Creation Error", "Failed to create request: " ++ e⟩], none⟩
  | Except.ok _ =>
    match o.http with
    | HttpOutcome.doFail msg =>
      ⟨[], some ⟨some false, some ("Request failed: " ++ msg), some 0⟩⟩
    | HttpOutcome.response r =>
      match r.body with
      | BodyOutcome.fail msg =>
        ⟨[], some ⟨some false, some ("Failed to read response: " ++ msg),
                   some r.statusCode⟩⟩
      | BodyOutcome.ok body =>
        let isSuccess : Bool := decide (200 ≤ r.statusCode) && decide (r.statusCode < 300)
        let failReason : Option String :=
          if isSuccess then none
          else some ("HTTP " ++ toString r.statusCode ++ ": " ++ body)
        if expectSuccess && !isSuccess then
          ⟨[⟨Severity.error, "Exfiltration Failed",
             "Expected successful exfiltration but got HTTP " ++
               toString r.statusCode ++ ": " ++ body⟩], none⟩
        else
          ⟨[], some ⟨some isSuccess, failReason, some r.statusCode⟩⟩

/-! ### utils.DownloadFile -/

/-- An HTTP response as observed by `DownloadFile`: status code and body
(the body is streamed by `io.Copy`; a copy failure is a separate oracle). -/
structure DownloadResponse where
  statusCode : Int
  body : String
deriving DecidableEq

/-- Oracle for `DownloadFile`'s collaborators: `os.CreateTemp` (temp file
name), `http.NewRequestWithContext`, `client.Do`, `io.Copy`, and
`filepath.Abs` applied to the temp file name. -/
structure DownloadOracle where
  createTemp : Except String String
  newRequest : Except String Unit
  http : Except String DownloadResponse
  copyBody : Except String Unit
  absPath : String → Except String String

/-- `utils.DownloadFile`.  First component: the function's
`(string, error)` result.  Second component: the contents of the temp file
after a completed `io.Copy` (`none` when the copy was not performed or
failed, i.e. the contents are unspecified). -/
def downloadFile (o : DownloadOracle) : Except String String × Option String :=
  match o.createTemp with
  | Except.error e => (Except.error ("failed to create temporary file: " ++ e), none)
  | Except.ok tmpName =>
    match o.newRequest with
    | Except.error e => (Except.error ("failed to create request: " ++ e), none)
    | Except.ok _ =>
      match o.http with
      | Except.error e => (Except.error ("failed to download file: " ++ e), none)
      | Except.ok resp =>
        if resp.statusCode ≠ 200 then
          (Except.error ("failed to download file: status code " ++ toString resp.statusCode),
           none)
        else
          match o.copyBody with
          | Except.error e => (Except.error ("failed to save file: " ++ e), none)
          | Except.ok _ =>
            match o.absPath tmpName with
            | Except.error e =>
              (Except.error ("failed to get absolute path: " ++ e), some resp.body)
            | Except.ok p => (Except.ok p, some resp.body)

/-! ### Go maps as association lists

The data sources build Go maps by repeated assignment.  A Go map is
embedded as a `List (α × β)` with unique keys, built from the empty list
by `mapSet` (assignment: replace the binding if the key is present,
append it otherwise).  Go's randomized iteration order means only the
*set* of bindings is observable; the embedding's deterministic order is a
refinement, and theorems about map contents are stated via membership. -/

/-- Go map assignment `m[k] = v` on an association list. -/
def mapSet {α β : Type} [DecidableEq α] : List (α × β) → α → β → List (α × β)
  | [], k, v => [(k, v)]
  | p :: rest, k, v =>
    if p.1 = k then (k, v) :: rest else p :: mapSet rest k v

/-! ### terrapwner_env_dump -/

/-- Splitting a character list at the first occurrence of `sep`:
`some (before, after)` when `sep` occurs, `none` otherwise.  This is the
computational core of Go's `strings.Cut(s, sep)` and of the first element
of `strings.SplitN(s, sep, 2)` for a one-character separator. -/
def cutAux (sep : Char) (acc : List Char) : List Char → Option (List Char × List Char)
  | [] => none
  | c :: rest =>
    if c = sep then some (acc.reverse, rest) else cutAux sep (c :: acc) rest

/-- `strings.Cut(env, "=")`: split at the first `"="`; `none` when no
`"="` occurs (such entries are skipped by `Read`). -/
def goCut (s : String) : Option (String × String) :=
  match cutAux '=' [] s.data with
  | none => none
  | some kv => some (⟨kv.1⟩, ⟨kv.2⟩)

/-- One iteration of the `os.Environ()` loop: parse the entry and assign
it into the map, skipping entries without `"="`. -/
def envStep (m : List (String × String)) (e : String) : List (String × String) :=
  match goCut e with
  | none => m
  | some (k, v) => mapSet m k v

/-- The `envVars` map built by `Read` from the raw `os.Environ()` list. -/
def buildEnvMap (env : List String) : List (String × String) :=
  env.foldl envStep []

/-- The masking loop: replace every value with `"<REDACTED>"`. -/
def maskVars (m : List (String × String)) : List (String × String) :=
  m.map (fun p => (p.1, "<REDACTED>"))

/-- State of `terrapwner_env_dump` as saved by `Read`. -/
structure EnvDumpState where
  vars : List (String × String)
  id : String
deriving DecidableEq

/-- `TerrapwnerEnvDumpDataSource.Read`, given the `mask_values` attribute
(`none` when null) and the raw `os.Environ()` entries. -/
def envDumpRead (maskValues : Option Bool) (env : List String) : ReadOutcome EnvDumpState :=
  let mv := maskValues.getD true
  let envVars := buildEnvMap env
  let envVars := if mv then maskVars envVars else envVars
  ⟨[], some ⟨envVars, "env_dump"⟩⟩

/-! ### terrapwner_tfstate -/

/-- A resource entry of the parsed `terraform show -json` root module. -/
structure StateResource where
  type : String
deriving DecidableEq

/-- A child-module entry of the parsed root module. -/
structure ChildModule where
  address : String
deriving DecidableEq

/-- An output entry of the parsed state values. -/
structure StateOutput where
  sensitive : Bool
deriving DecidableEq

/-- The root module of the parsed state. -/
structure RootModule where
  resources : List StateResource
  childModules : List ChildModule
deriving DecidableEq

/-- The parsed `terraform show -json` document (`state` struct in the
source); `outputs` is a JSON object, embedded as an association list. -/
structure TfState where
  rootModule : RootModule
  outputs : List (String × StateOutput)
deriving DecidableEq

/-- Insertion of a key into a Go set-map (`m[k] = struct{}{}`), embedded
as a duplicate-free list of keys in first-insertion order. -/
def insertKey (m : List String) (k : String) : List String :=
  if k ∈ m then m else m ++ [k]

/-- `strings.SplitN(s, "_", 2)[0]`: the prefix of `s` before its first
underscore (all of `s` when it has no underscore).  `SplitN` always
returns at least one element, so the source's `len(parts) > 0` guard is
always true. -/
def splitN2First (s : String) : String :=
  match cutAux '_' [] s.data with
  | none => s
  | some kv => ⟨kv.1⟩

/-- `extractResourceInfo`: the sets of resource types and of provider
prefixes over the root module's resources. -/
def extractResourceInfo (resources : List StateResource) : List String × List String :=
  resources.foldl
    (fun acc r => (insertKey acc.1 r.type, insertKey acc.2 (splitN2First r.type)))
    ([], [])

/-- `extractModuleNames`: the root module's empty address plus each child
module address. -/
def extractModuleNames (root : RootModule) : List String :=
  root.childModules.foldl (fun acc m => insertKey acc m.address) [""]

/-- `extractSensitiveOutputs`: `name ↦ true` for each sensitive output. -/
def extractSensitiveOutputs (outputs : List (String × StateOutput)) :
    List (String × Bool) :=
  outputs.foldl (fun acc p => if p.2.sensitive then mapSet acc p.1 true else acc) []

/-- State of `terrapwner_tfstate` as saved by `Read`. -/
structure TfstateState where
  success : Option Bool
  rawJSON : Option String
  resourceTypes : Option (List String)
  resourceCount : Option Int
  providers : Option (List String)
  modules : Option (List String)
  sensitiveOutputs : Option (List (String × Bool))
deriving DecidableEq

/-- `TerrapwnerTfstateDataSource.Read`: run `terraform show -json` (its
outcome is the `exec` oracle), parse the stdout (the `parse` oracle
stands for `json.Unmarshal`), then extract and store. -/
def tfstateRead (exec : ExecOutcome) (parse : String → Except String TfState) :
    ReadOutcome TfstateState :=
  match exec with
  | ExecOutcome.fail msg =>
    ⟨[⟨Severity.error, "Failed to read state", msg⟩], none⟩
  | ExecOutcome.ok r =>
    match parse r.stdout with
    | Except.error e =>
      ⟨[⟨Severity.error, "Failed to parse state JSON", e⟩], none⟩
    | Except.ok st =>
      let info := extractResourceInfo st.rootModule.resources
      let modules := extractModuleNames st.rootModule
      let sens := extractSensitiveOutputs st.outputs
      ⟨[], some ⟨some true, some r.stdout, some info.1,
                 some (st.rootModule.resources.length : Int), some info.2,
                 some modules, some sens⟩⟩

/-! ### terrapwner_identity -/

/-- The five identity fields that `getAWSIdentity` fills in on success.
On failure `Read` overwrites all of them with `"unknown"`, so the partial
assignments the Go function makes before an error are not observable. -/
structure AWSIdentityInfo where
  accountId : String
  resourceId : String
  callerName : String
  callerType : String
  sessionName : String
deriving DecidableEq

/-- State of `terrapwner_identity` as saved by `Read`. -/
structure IdentityState where
  id : Option String
  cloudProvider : Option String
  accountId : Option String
  resourceId : Option String
  callerName : Option String
  callerType : Option String
  sessionName : Option String
  region : Option String
deriving DecidableEq

/-- `detectProviderAndEnvironment`, given the values of the
`AWS_ACCESS_KEY_ID` and `AWS_REGION` environment variables. -/
def detectProviderAndEnvironment (awsAccessKeyId awsRegion : String) : String × String :=
  if awsAccessKeyId ≠ "" then
    ("aws", if awsRegion = "" then "us-east-1" else awsRegion)
  else
    ("", "")

/-- `TerrapwnerIdentityDataSource.Read`.  `awsId` is the outcome of
`getAWSIdentity` (consulted only when the detected provider is "aws"). -/
def identityRead (awsAccessKeyId awsRegion : String)
    (awsId : Except String AWSIdentityInfo) : ReadOutcome IdentityState :=
  let pr := detectProviderAndEnvironment awsAccessKeyId awsRegion
  let provider := pr.1
  let region := pr.2
  if provider = "aws" then
    match awsId with
    | Except.error e =>
      ⟨[⟨Severity.warning, "Failed to get AWS identity", e⟩],
       some ⟨some (provider ++ "-" ++ "unknown"), some provider, some "unknown",
             some "unknown", some "unknown", some "unknown", some "unknown", some region⟩⟩
    | Except.ok info =>
      ⟨[], some ⟨some (provider ++ "-" ++ info.accountId), some provider,
                 some info.accountId, some info.resourceId, some info.callerName,
                 some info.callerType, some info.sessionName, some region⟩⟩
  else if provider = "" then
    ⟨[], some ⟨some (provider ++ "-" ++ "unknown"), some provider, some "unknown",
               some "unknown", some "unknown", some "unknown", some "unknown", some region⟩⟩
  else
    ⟨[⟨Severity.warning, "Unsupported provider", "Provider " ++ provider ++ " is not supported"⟩],
     some ⟨some (provider ++ "-" ++ "unknown"), some provider, some "unknown",
           some "unknown", some "unknown", some "unknown", some "unknown", some region⟩⟩

/-! ## Claim theorems -/

/-- C9: for every local_exec Read whose configured command list is empty,
Read emits the error diagnostic "Command list cannot be empty", executes
nothing (no `utils.Execute` call), and saves no state. -/
theorem c9_local_exec_empty_command (cfg : LocalExecConfig) (exec : ExecOutcome)
    (durMs : Int) (h : cfg.command = []) :
    localExecRead cfg exec durMs =
      (⟨[⟨Severity.error, "Invalid command", "Command list cannot be empty"⟩], none⟩, []) := by
  simp [localExecRead, h]

/-- Witness for C9 at a concrete empty-command configuration. -/
theorem c9_witness :
    (⟨[], none, none, none⟩ : LocalExecConfig).command = [] ∧
    localExecRead ⟨[], none, none, none⟩ (ExecOutcome.fail "x") 0 =
      (⟨[⟨Severity.error, "Invalid command", "Command list cannot be empty"⟩], none⟩, []) :=
  ⟨rfl, c9_local_exec_empty_command _ _ _ rfl⟩

/-- C1: when the underlying download or command execution returns an error
during Read: with fail_on_error true, an error diagnostic is emitted and
no state saved; with fail_on_error false (the default when null), no error
diagnostic is emitted and the saved state records success=false,
exit_code=-1, the error message in fail_reason (local_exec) resp. stderr
(remote_exec), remote_exec additionally adding a warning diagnostic. -/
theorem c1_exec_error_paths (lcfg : LocalExecConfig) (rcfg : RemoteExecConfig)
    (msg dmsg emsg : String) (durMs : Int) (hcmd : lcfg.command ≠ []) :
    ((lcfg.failOnError.getD false = true →
        (localExecRead lcfg (ExecOutcome.fail msg) durMs).1 =
          ⟨[⟨Severity.error, "Command execution failed",
             "Failed to execute command: " ++ msg⟩], none⟩) ∧
     (lcfg.failOnError.getD false = false →
        (localExecRead lcfg (ExecOutcome.fail msg) durMs).1 =
          ⟨[], some ⟨some false, none, none, some (-1),
                     some ("Failed to execute command: " ++ msg), some durMs⟩⟩)) ∧
    ((rcfg.failOnError.getD false = true →
        remoteExecRead rcfg (RemoteOutcome.downloadFail dmsg) =
          ⟨[⟨Severity.error, "Failed to download script", dmsg⟩], none⟩ ∧
        remoteExecRead rcfg (RemoteOutcome.execFail emsg) =
          ⟨[⟨Severity.error, "Failed to execute script", emsg⟩], none⟩) ∧
     (rcfg.failOnError.getD false = false →
        remoteExecRead rcfg (RemoteOutcome.downloadFail dmsg) =
          ⟨[⟨Severity.warning, "Failed to download script", dmsg⟩],
           some ⟨some false, some "", some dmsg, some (-1)⟩⟩ ∧
        remoteExecRead rcfg (RemoteOutcome.execFail emsg) =
          ⟨[⟨Severity.warning, "Failed to execute script", emsg⟩],
           some ⟨some false, some "", some emsg, some (-1)⟩⟩)) := by
  obtain ⟨c0, rest, hc⟩ := List.exists_cons_of_ne_nil hcmd
  refine ⟨⟨fun h => ?_, fun h => ?_⟩, ⟨fun h => ⟨?_, ?_⟩, fun h => ⟨?_, ?_⟩⟩⟩ <;>
    simp [localExecRead, remoteExecRead, hc, h]

/-- Witness for C1: concrete fail_on_error=false local execution failure. -/
theorem c1_witness :
    (localExecRead ⟨["sh"], none, none, none⟩ (ExecOutcome.fail "boom") 5).1 =
      ⟨[], some ⟨some false, none, none, some (-1),
                 some ("Failed to execute command: " ++ "boom"), some 5⟩⟩ :=
  (c1_exec_error_paths ⟨["sh"], none, none, none⟩ ⟨"u", "i", none, none, none⟩
      "boom" "d" "e" 5 (by decide)).1.2 rfl

/-- C10: the identity Read never emits an error diagnostic (at most
warnings); it reports cloud_provider "aws" exactly when AWS_ACCESS_KEY_ID
is non-empty, with region from AWS_REGION defaulting to "us-east-1"; and
in every failure or non-AWS case the five identity fields are "unknown". -/
theorem c10_identity_read (key regionEnv : String)
    (awsId : Except String AWSIdentityInfo) :
    (∀ d ∈ (identityRead key regionEnv awsId).diags, d.severity = Severity.warning) ∧
    ∃ st, (identityRead key regionEnv awsId).state = some st ∧
      (st.cloudProvider = some "aws" ↔ key ≠ "") ∧
      (key ≠ "" → st.region = some (if regionEnv = "" then "us-east-1" else regionEnv)) ∧
      ((key = "" ∨ ∃ e, awsId = Except.error e) →
        st.accountId = some "unknown" ∧ st.resourceId = some "unknown" ∧
        st.callerName = some "unknown" ∧ st.callerType = some "unknown" ∧
        st.sessionName = some "unknown") := by
  by_cases hk : key = ""
  · subst hk
    cases awsId <;>
      simp [identityRead, detectProviderAndEnvironment]
  · cases awsId <;>
      simp [identityRead, detectProviderAndEnvironment, hk]

/-- Witness for C10 at a concrete AWS environment whose STS call fails. -/
theorem c10_witness :
    (∀ d ∈ (identityRead "AKIA" "" (Except.error "denied")).diags,
      d.severity = Severity.warning) ∧
    ∃ st, (identityRead "AKIA" "" (Except.error "denied")).state = some st ∧
      (st.cloudProvider = some "aws" ↔ ("AKIA" : String) ≠ "") ∧
      (("AKIA" : String) ≠ "" →
        st.region = some (if ("" : String) = "" then "us-east-1" else "")) ∧
      ((("AKIA" : String) = "" ∨
          ∃ e, (Except.error "denied" : Except String AWSIdentityInfo) = Except.error e) →
        st.accountId = some "unknown" ∧ st.resourceId = some "unknown" ∧
        st.callerName = some "unknown" ∧ st.callerType = some "unknown" ∧
        st.sessionName = some "unknown") :=
  c10_identity_read "AKIA" "" (Except.error "denied")

/-- C6: DownloadFile errors whenever the request cannot be created, the
HTTP request fails, or the status code is not 200 (the error naming the
status code in that last case, when reached); a non-error result arises
only for a 200 response and is then the absolute path of the temp file,
whose contents equal the response body. -/
theorem c6_download_file (o : DownloadOracle) :
    (∀ e, o.newRequest = Except.error e →
       ∃ e2, (downloadFile o).1 = Except.error e2) ∧
    (∀ e, o.http = Except.error e →
       ∃ e2, (downloadFile o).1 = Except.error e2) ∧
    (∀ tmp resp, o.createTemp = Except.ok tmp → o.newRequest = Except.ok () →
       o.http = Except.ok resp → resp.statusCode ≠ 200 →
       (downloadFile o).1 =
         Except.error ("failed to download file: status code " ++ toString resp.statusCode)) ∧
    (∀ p, (downloadFile o).1 = Except.ok p →
       ∃ tmp resp, o.createTemp = Except.ok tmp ∧ o.http = Except.ok resp ∧
         resp.statusCode = 200 ∧ o.absPath tmp = Except.ok p ∧
         (downloadFile o).2 = some resp.body) := by
  obtain ⟨ct, nr, ht, cb, ab⟩ := o
  refine ⟨fun e he => ?_, fun e he => ?_, fun tmp resp h1 h2 h3 h4 => ?_, fun p hp => ?_⟩
  · cases ct with
    | error e1 => exact ⟨_, rfl⟩
    | ok tmp => subst he; exact ⟨_, rfl⟩
  · cases ct with
    | error e1 => exact ⟨_, rfl⟩
    | ok tmp =>
      cases nr with
      | error e1 => exact ⟨_, rfl⟩
      | ok u => cases u; subst he; exact ⟨_, rfl⟩
  · subst h1; subst h2; subst h3
    simp [downloadFile, h4]
  · cases ct with
    | error e1 => simp [downloadFile] at hp
    | ok tmp =>
      cases nr with
      | error e1 => simp [downloadFile] at hp
      | ok u =>
        cases u
        cases ht with
        | error e1 => simp [downloadFile] at hp
        | ok resp =>
          by_cases hs : resp.statusCode = 200
          · cases cb with
            | error e1 => simp [downloadFile, hs] at hp
            | ok u2 =>
              cases u2
              rcases hab : ab tmp with e2 | p2 <;>
                simp [downloadFile, hs, hab] at hp
              subst hp
              exact ⟨tmp, resp, rfl, rfl, hs, hab, by simp [downloadFile, hs, hab]⟩
          · simp [downloadFile, hs] at hp

/-- Witness for C6: a concrete 404 response yields the status-code error. -/
theorem c6_witness :
    (downloadFile ⟨Except.ok "/tmp/t", Except.ok (), Except.ok ⟨404, "nope"⟩,
        Except.ok (), fun s => Except.ok s⟩).1 =
      Except.error ("failed to download file: status code " ++ toString (404 : Int)) :=
  (c6_download_file _).2.2.1 "/tmp/t" ⟨404, "nope"⟩ rfl rfl rfl (by decide)

/-- C4 counterexample: an exfil Read that receives an HTTP response with
status 204 (which lies in [200,300)) but whose body read fails stores
success=false — contradicting the claim that, for every Read receiving a
response, success is true iff the status is 2xx (and, with expect_success
defaulted to true and a non-2xx status, this path would also save state
without an error diagnostic, contradicting the claimed diagnostic
condition). -/
theorem c4_counterexample :
    exfilRead ⟨"c", "http://e", none, none⟩
        ⟨Except.ok (), HttpOutcome.response ⟨204, BodyOutcome.fail "connection reset"⟩⟩ =
      ⟨[], some ⟨some false, some ("Failed to read response: " ++ "connection reset"),
                 some 204⟩⟩ ∧
    (200 ≤ (204 : Int) ∧ (204 : Int) < 300) :=
  ⟨rfl, by decide⟩

/-- C4 (amended): for every exfil Read that receives an HTTP response
*and reads its body successfully*, success is true iff the status is in
[200,300), response_code equals the status, and an error diagnostic with
no saved state arises exactly when expect_success (default true) holds
and the status is not 2xx; on a transport failure the saved state has
success=false and response_code=0 with no diagnostic; on a body-read
failure the saved state has success=false and response_code equal to the
status, with no diagnostic. -/
theorem c4_exfil_read (cfg : ExfilConfig) (msg body : String) (status : Int) :
    (exfilRead cfg ⟨Except.ok (), HttpOutcome.doFail msg⟩ =
       ⟨[], some ⟨some false, some ("Request failed: " ++ msg), some 0⟩⟩) ∧
    (exfilRead cfg ⟨Except.ok (), HttpOutcome.response ⟨status, BodyOutcome.fail msg⟩⟩ =
       ⟨[], some ⟨some false, some ("Failed to read response: " ++ msg), some status⟩⟩) ∧
    (200 ≤ status ∧ status < 300 →
       exfilRead cfg ⟨Except.ok (), HttpOutcome.response ⟨status, BodyOutcome.ok body⟩⟩ =
         ⟨[], some ⟨some true, none, some status⟩⟩) ∧
    (¬(200 ≤ status ∧ status < 300) →
       (cfg.expectSuccess.getD true = true →
          exfilRead cfg ⟨Except.ok (), HttpOutcome.response ⟨status, BodyOutcome.ok body⟩⟩ =
            ⟨[⟨Severity.error, "Exfiltration Failed",
               "Expected successful exfiltration but got HTTP " ++
                 toString status ++ ": " ++ body⟩], none⟩) ∧
       (cfg.expectSuccess.getD true = false →
          exfilRead cfg ⟨Except.ok (), HttpOutcome.response ⟨status, BodyOutcome.ok body⟩⟩ =
            ⟨[], some ⟨some false, some ("HTTP " ++ toString status ++ ": " ++ body),
                       some status⟩⟩)) := by
  refine ⟨rfl, rfl, fun h2 => ?_, fun h2 => ⟨fun hes => ?_, fun hes => ?_⟩⟩
  · have hd : (decide (200 ≤ status) && decide (status < 300)) = true := by
      simp [h2.1, h2.2]
    simp [exfilRead, hd]
  · have hd : (decide (200 ≤ status) && decide (status < 300)) = false := by
      rcases not_and_or.mp h2 with h | h <;> simp [h]
    simp [exfilRead, hd, hes]
  · have hd : (decide (200 ≤ status) && decide (status < 300)) = false := by
      rcases not_and_or.mp h2 with h | h <;> simp [h]
    simp [exfilRead, hd, hes]

/-- Witness for C4 (amended): a concrete 500 response with
expect_success left null raises the error diagnostic and saves no state. -/
theorem c4_witness :
    ¬(200 ≤ (500 : Int) ∧ (500 : Int) < 300) ∧
    exfilRead ⟨"c", "http://e", none, none⟩
        ⟨Except.ok (), HttpOutcome.response ⟨500, BodyOutcome.ok "oops"⟩⟩ =
      ⟨[⟨Severity.error, "Exfiltration Failed",
         "Expected successful exfiltration but got HTTP " ++
           toString (500 : Int) ++ ": " ++ "oops"⟩], none⟩ :=
  ⟨by decide,
   ((c4_exfil_read ⟨"c", "http://e", none, none⟩ "m" "oops" 500).2.2.2
       (by decide)).1 rfl⟩

/-! Helper lemmas about the network calls made by the probe helpers. -/

/-- Every call made by the ICMP per-IP loop is a `net.DialTimeout` with
the fixed 5-second timeout and no context. -/
theorem icmpLoop_ops (o : NetOracle) (ips : List String) :
    ∀ op ∈ (icmpLoop o ips).2,
      op.usesCtx = false ∧ op.explicitTimeoutSecs = some 5 := by
  induction ips with
  | nil => intro op hop; simp [icmpLoop] at hop
  | cons ip rest ih =>
    intro op hop
    rcases h : o.dial "ip4:icmp" ip with e | u <;> simp [icmpLoop, h] at hop
    · rcases hop with rfl | hop
      · exact ⟨rfl, rfl⟩
      · exact ih op hop
    · cases hop
      exact ⟨rfl, rfl⟩

/-- Every call made by `probeICMP` is either a resolver lookup carrying
the context or a fixed-5-second dial without it. -/
theorem probeICMP_ops (o : NetOracle) (host : String) :
    ∀ op ∈ (probeICMP o host).2,
      (op.usesCtx = true ∧ op.explicitTimeoutSecs = none) ∨
      (op.usesCtx = false ∧ op.explicitTimeoutSecs = some 5) := by
  intro op hop
  rcases h : o.lookupIPAddr with e | ips <;> simp [probeICMP, h] at hop
  · cases hop
    exact Or.inl ⟨rfl, rfl⟩
  · by_cases hips : ips = [] <;> simp [hips] at hop
    · cases hop
      exact Or.inl ⟨rfl, rfl⟩
    · rcases hop with rfl | hop
      · exact Or.inl ⟨rfl, rfl⟩
      · exact Or.inr (icmpLoop_ops o ips op hop)

/-- Case analysis of `networkProbeRead`: every network call either
receives the context (resolver lookups) or is a `net.DialTimeout` with
the fixed 5-second timeout. -/
theorem networkProbeRead_ops (cfg : NetworkProbeConfig) (o : NetOracle) (durMs : Int) :
    ∀ op ∈ (networkProbeRead cfg o durMs).ops,
      (op.usesCtx = true ∧ op.explicitTimeoutSecs = none) ∨
      (op.usesCtx = false ∧ op.explicitTimeoutSecs = some 5) := by
  intro op hop
  simp only [networkProbeRead] at hop
  split_ifs at hop <;> simp at hop
  · -- dns
    rcases h : o.lookupHost with e | l <;> simp [probeDNS, h] at hop <;>
      (cases hop; exact Or.inl ⟨rfl, rfl⟩)
  · -- tcp
    rcases h : o.dial "tcp" (cfg.host.getD "" ++ ":" ++ toString (cfg.port.getD 0))
        with e | u <;> simp [probeTCP, h] at hop <;>
      (cases hop; exact Or.inr ⟨rfl, rfl⟩)
  · -- udp
    rcases h : o.dial "udp" (cfg.host.getD "" ++ ":" ++ toString (cfg.port.getD 0))
        with e | u <;> simp [probeUDP, h] at hop <;>
      (cases hop; exact Or.inr ⟨rfl, rfl⟩)
  · -- icmp
    exact probeICMP_ops o (cfg.host.getD "") op hop

/-- When a probe was dispatched, the context installed by
`context.WithTimeout` carries the configured timeout (default 5 s). -/
theorem networkProbeRead_ctx (cfg : NetworkProbeConfig) (o : NetOracle) (durMs : Int) :
    (networkProbeRead cfg o durMs).calls ≠ [] →
    (networkProbeRead cfg o durMs).ctxTimeoutSecs = some (cfg.timeout.getD 5) := by
  intro h
  simp only [networkProbeRead] at h ⊢
  split_ifs at h ⊢ <;> simp_all

/-- When a probe was dispatched, `Read` appends no diagnostics at all. -/
theorem networkProbeRead_calls_diags (cfg : NetworkProbeConfig) (o : NetOracle) (durMs : Int) :
    (networkProbeRead cfg o durMs).calls ≠ [] →
    (networkProbeRead cfg o durMs).outcome.diags = [] := by
  intro h
  simp only [networkProbeRead] at h ⊢
  split_ifs at h ⊢ <;> simp_all

/-- C2 counterexample: with the timeout attribute set to 1 second, the
TCP probe's connection attempt is still made through `net.DialTimeout`
with a fixed 5-second timeout and without the context, so the probe
operation is not bounded by the caller-supplied timeout through context
cancellation. -/
theorem c2_counterexample :
    (networkProbeRead ⟨some "tcp", some "h", some 80, none, some 1⟩
        ⟨Except.ok [], Except.ok [], fun _ _ => Except.ok ()⟩ 0).ops =
      [NetOp.dial "tcp" ("h" ++ ":" ++ toString (80 : Int)) 5] ∧
    NetOp.usesCtx (NetOp.dial "tcp" ("h" ++ ":" ++ toString (80 : Int)) 5) = false ∧
    NetOp.explicitTimeoutSecs (NetOp.dial "tcp" ("h" ++ ":" ++ toString (80 : Int)) 5) =
      some 5 ∧
    (⟨some "tcp", some "h", some 80, none, some 1⟩ : NetworkProbeConfig).timeout = some 1 :=
  ⟨rfl, rfl, rfl, rfl⟩

/-- C2 (amended): `Read` installs a context carrying the caller-supplied
timeout (default 5 s) before dispatching, and the resolver lookups (DNS
probe, ICMP resolution) receive that context; but every `net.DialTimeout`
call (TCP, UDP, ICMP dials) takes no context and uses a fixed 5-second
timeout instead, independent of the timeout attribute. -/
theorem c2_probe_timeout_propagation (cfg : NetworkProbeConfig) (o : NetOracle)
    (durMs : Int) :
    ((networkProbeRead cfg o durMs).calls ≠ [] →
       (networkProbeRead cfg o durMs).ctxTimeoutSecs = some (cfg.timeout.getD 5)) ∧
    (∀ op ∈ (networkProbeRead cfg o durMs).ops,
       (op.usesCtx = true ∧ op.explicitTimeoutSecs = none) ∨
       (op.usesCtx = false ∧ op.explicitTimeoutSecs = some 5)) :=
  ⟨networkProbeRead_ctx cfg o durMs, networkProbeRead_ops cfg o durMs⟩

/-- Witness for C2 (amended) at a concrete DNS probe configuration. -/
theorem c2_witness :
    (networkProbeRead ⟨some "dns", some "h", none, none, some 7⟩
        ⟨Except.ok ["1.2.3.4"], Except.ok [], fun _ _ => Except.ok ()⟩ 0).calls ≠ [] ∧
    (networkProbeRead ⟨some "dns", some "h", none, none, some 7⟩
        ⟨Except.ok ["1.2.3.4"], Except.ok [], fun _ _ => Except.ok ()⟩ 0).ctxTimeoutSecs =
      some ((⟨some "dns", some "h", none, none, some 7⟩ : NetworkProbeConfig).timeout.getD 5) :=
  ⟨by decide,
   (c2_probe_timeout_propagation ⟨some "dns", some "h", none, none, some 7⟩
       ⟨Except.ok ["1.2.3.4"], Except.ok [], fun _ _ => Except.ok ()⟩ 0).1 (by decide)⟩

/-- C3 counterexample: a DNS probe that fails while expect_success is
defaulted to true produces no diagnostic at all — the failure is only
recorded in the saved state — contradicting the claim that a probe
failure contradicting expect_success produces a diagnostic. -/
theorem c3_counterexample :
    networkProbeRead ⟨some "dns", some "example.com", none, some true, none⟩
        ⟨Except.error "no such host", Except.ok [], fun _ _ => Except.ok ()⟩ 3 =
      ⟨⟨[], some ⟨some false, some ("DNS resolution failed: " ++ "no such host"), some 3⟩⟩,
       [ProbeCall.dns "example.com"], [NetOp.lookupHost "example.com"], some 5⟩ := by
  rfl

/-- C3 (amended): the expect_success attribute is read and defaulted to
true, but never consulted: the entire result of `Read` is independent of
its value, and once a probe is dispatched no diagnostic (warning or
error) is ever appended; the failure is surfaced only through the
success and fail_reason state attributes. -/
theorem c3_expect_success_unused (cfg : NetworkProbeConfig) (o : NetOracle)
    (durMs : Int) (e1 e2 : Option Bool) :
    networkProbeRead { cfg with expectSuccess := e1 } o durMs =
      networkProbeRead { cfg with expectSuccess := e2 } o durMs ∧
    ((networkProbeRead cfg o durMs).calls ≠ [] →
      (networkProbeRead cfg o durMs).outcome.diags = []) :=
  ⟨rfl, networkProbeRead_calls_diags cfg o durMs⟩

/-- Witness for C3 (amended): a failed DNS probe with expect_success true
yields no diagnostics. -/
theorem c3_witness :
    (networkProbeRead ⟨some "dns", some "example.com", none, some true, none⟩
        ⟨Except.error "no such host", Except.ok [], fun _ _ => Except.ok ()⟩ 3).calls ≠ [] ∧
    (networkProbeRead ⟨some "dns", some "example.com", none, some true, none⟩
        ⟨Except.error "no such host", Except.ok [], fun _ _ => Except.ok ()⟩ 3).outcome.diags =
      [] :=
  ⟨by decide,
   (c3_expect_success_unused ⟨some "dns", some "example.com", none, some true, none⟩
       ⟨Except.error "no such host", Except.ok [], fun _ _ => Except.ok ()⟩ 3
       (some true) none).2 (by decide)⟩

/-- C5: any of — missing/empty type or host, a missing port for tcp/udp,
a port outside [1,65535] for tcp/udp, a type outside
{dns, tcp, udp, icmp} — produces an error diagnostic, no probe dispatch,
no network call, and no saved state; otherwise Read dispatches exactly
one connectivity check matching the type (dns and icmp being given only
the host, not the port) and stores its success flag and fail reason. -/
theorem c5_network_probe_read (cfg : NetworkProbeConfig) (o : NetOracle) (durMs : Int) :
    ((cfg.type.getD "" = "" ∨ cfg.host.getD "" = "" ∨
        ((cfg.type.getD "" = "tcp" ∨ cfg.type.getD "" = "udp") ∧
          (cfg.port = none ∨ cfg.port.getD 0 < 1 ∨ cfg.port.getD 0 > 65535)) ∨
        cfg.type.getD "" ∉ (["dns", "tcp", "udp", "icmp"] : List String)) →
      hasError (networkProbeRead cfg o durMs).outcome.diags = true ∧
      (networkProbeRead cfg o durMs).calls = [] ∧
      (networkProbeRead cfg o durMs).ops = [] ∧
      (networkProbeRead cfg o durMs).outcome.state = none) ∧
    (cfg.host.getD "" ≠ "" →
      (cfg.type.getD "" = "dns" →
        networkProbeRead cfg o durMs =
          ⟨⟨[], some ⟨some (probeDNS o (cfg.host.getD "")).1.1,
                      some (probeDNS o (cfg.host.getD "")).1.2, some durMs⟩⟩,
           [ProbeCall.dns (cfg.host.getD "")], (probeDNS o (cfg.host.getD "")).2,
           some (cfg.timeout.getD 5)⟩) ∧
      (∀ p, cfg.type.getD "" = "tcp" → cfg.port = some p → 1 ≤ p → p ≤ 65535 →
        networkProbeRead cfg o durMs =
          ⟨⟨[], some ⟨some (probeTCP o (cfg.host.getD "") p).1.1,
                      some (probeTCP o (cfg.host.getD "") p).1.2, some durMs⟩⟩,
           [ProbeCall.tcp (cfg.host.getD "") p], (probeTCP o (cfg.host.getD "") p).2,
           some (cfg.timeout.getD 5)⟩) ∧
      (∀ p, cfg.type.getD "" = "udp" → cfg.port = some p → 1 ≤ p → p ≤ 65535 →
        networkProbeRead cfg o durMs =
          ⟨⟨[], some ⟨some (probeUDP o (cfg.host.getD "") p).1.1,
                      some (probeUDP o (cfg.host.getD "") p).1.2, some durMs⟩⟩,
           [ProbeCall.udp (cfg.host.getD "") p], (probeUDP o (cfg.host.getD "") p).2,
           some (cfg.timeout.getD 5)⟩) ∧
      (cfg.type.getD "" = "icmp" →
        networkProbeRead cfg o durMs =
          ⟨⟨[], some ⟨some (probeICMP o (cfg.host.getD "")).1.1,
                      some (probeICMP o (cfg.host.getD "")).1.2, some durMs⟩⟩,
           [ProbeCall.icmp (cfg.host.getD "")], (probeICMP o (cfg.host.getD "")).2,
           some (cfg.timeout.getD 5)⟩)) := by
  constructor
  · intro h
    simp only [networkProbeRead]
    split_ifs with h1 h2 h3 h4 h5 h6 h7 h8
    · exact ⟨rfl, rfl, rfl, rfl⟩
    · exact ⟨rfl, rfl, rfl, rfl⟩
    · exact ⟨rfl, rfl, rfl, rfl⟩
    · exact ⟨rfl, rfl, rfl, rfl⟩
    · exfalso
      rcases h with h | h | ⟨htu, hpp⟩ | h
      · exact h1 h
      · exact h2 h
      · rw [h5] at htu; simp at htu
      · rw [h5] at h; simp at h
    · exfalso
      rcases h with h | h | ⟨htu, hpp⟩ | h
      · exact h1 h
      · exact h2 h
      · rcases hpp with hp | hp | hp
        · exact h3 ⟨htu, hp⟩
        · exact h4 ⟨htu, Or.inl hp⟩
        · exact h4 ⟨htu, Or.inr hp⟩
      · rw [h6] at h; simp at h
    · exfalso
      rcases h with h | h | ⟨htu, hpp⟩ | h
      · exact h1 h
      · exact h2 h
      · rcases hpp with hp | hp | hp
        · exact h3 ⟨htu, hp⟩
        · exact h4 ⟨htu, Or.inl hp⟩
        · exact h4 ⟨htu, Or.inr hp⟩
      · rw [h7] at h; simp at h
    · exfalso
      rcases h with h | h | ⟨htu, hpp⟩ | h
      · exact h1 h
      · exact h2 h
      · rw [h8] at htu; simp at htu
      · rw [h8] at h; simp at h
    · exact ⟨rfl, rfl, rfl, rfl⟩
  · intro hh
    refine ⟨fun ht => ?_, fun p ht hp hp1 hp2 => ?_, fun p ht hp hp1 hp2 => ?_,
            fun ht => ?_⟩
    · simp [networkProbeRead, ht, hh]
    · have hrange : ¬(p < 1 ∨ p > 65535) := by omega
      simp [networkProbeRead, ht, hh, hp, hrange]
    · have hrange : ¬(p < 1 ∨ p > 65535) := by omega
      simp [networkProbeRead, ht, hh, hp, hrange]
    · simp [networkProbeRead, ht, hh]

/-- Witness for C5: a tcp probe with a missing port is rejected with an
error and no probe, and a valid dns probe dispatches exactly one check. -/
theorem c5_witness :
    ((⟨some "tcp", some "h", none, none, none⟩ : NetworkProbeConfig).type.getD "" = "" ∨
      (⟨some "tcp", some "h", none, none, none⟩ : NetworkProbeConfig).host.getD "" = "" ∨
      (((⟨some "tcp", some "h", none, none, none⟩ : NetworkProbeConfig).type.getD "" = "tcp" ∨
         (⟨some "tcp", some "h", none, none, none⟩ : NetworkProbeConfig).type.getD "" = "udp") ∧
        ((⟨some "tcp", some "h", none, none, none⟩ : NetworkProbeConfig).port = none ∨
         (⟨some "tcp", some "h", none, none, none⟩ : NetworkProbeConfig).port.getD 0 < 1 ∨
         (⟨some "tcp", some "h", none, none, none⟩ : NetworkProbeConfig).port.getD 0 > 65535)) ∨
      (⟨some "tcp", some "h", none, none, none⟩ : NetworkProbeConfig).type.getD "" ∉
        (["dns", "tcp", "udp", "icmp"] : List String)) ∧
    hasError (networkProbeRead ⟨some "tcp", some "h", none, none, none⟩
        ⟨Except.ok [], Except.ok [], fun _ _ => Except.ok ()⟩ 0).outcome.diags = true ∧
    (networkProbeRead ⟨some "tcp", some "h", none, none, none⟩
        ⟨Except.ok [], Except.ok [], fun _ _ => Except.ok ()⟩ 0).calls = [] :=
  have happ := (c5_network_probe_read ⟨some "tcp", some "h", none, none, none⟩
      ⟨Except.ok [], Except.ok [], fun _ _ => Except.ok ()⟩ 0).1
      (Or.inr (Or.inr (Or.inl ⟨Or.inl rfl, Or.inl rfl⟩)))
  ⟨Or.inr (Or.inr (Or.inl ⟨Or.inl rfl, Or.inl rfl⟩)), happ.1, happ.2.1⟩

/-! Helper lemmas about the Go set-map and map embeddings. -/

/-- Membership in a set-map after insertion. -/
theorem mem_insertKey (m : List String) (k x : String) :
    x ∈ insertKey m k ↔ x ∈ m ∨ x = k := by
  unfold insertKey
  split
  · rename_i hk
    constructor
    · exact Or.inl
    · rintro (h | rfl)
      · exact h
      · exact hk
  · simp

/-- Insertion into a set-map preserves freedom from duplicates. -/
theorem nodup_insertKey (m : List String) (k : String) (h : m.Nodup) :
    (insertKey m k).Nodup := by
  unfold insertKey
  split
  · exact h
  · rename_i hk
    simp [List.nodup_append, h, hk]

/-- Membership in a fold of set-map insertions. -/
theorem mem_foldl_insertKey {γ : Type} (f : γ → String) (l : List γ)
    (init : List String) (x : String) :
    x ∈ l.foldl (fun acc g => insertKey acc (f g)) init ↔ x ∈ init ∨ x ∈ l.map f := by
  induction l generalizing init with
  | nil => simp
  | cons g t ih =>
    simp only [List.foldl_cons, ih, mem_insertKey, List.map_cons, List.mem_cons]
    tauto

/-- A fold of set-map insertions preserves freedom from duplicates. -/
theorem nodup_foldl_insertKey {γ : Type} (f : γ → String) (l : List γ)
    (init : List String) (h : init.Nodup) :
    (l.foldl (fun acc g => insertKey acc (f g)) init).Nodup := by
  induction l generalizing init with
  | nil => exact h
  | cons g t ih => exact ih _ (nodup_insertKey _ _ h)

/-- The simultaneous pair fold of `extractResourceInfo` splits into two
independent set-map folds. -/
theorem foldl_insertKey_pair (rs : List StateResource) (init : List String × List String) :
    rs.foldl
        (fun acc r => (insertKey acc.1 r.type, insertKey acc.2 (splitN2First r.type)))
        init =
      (rs.foldl (fun acc r => insertKey acc r.type) init.1,
       rs.foldl (fun acc r => insertKey acc (splitN2First r.type)) init.2) := by
  induction rs generalizing init with
  | nil => rfl
  | cons r t ih => simp only [List.foldl_cons, ih]

/-- Go map assignment of a fresh key appends the binding. -/
theorem mapSet_of_not_mem {α β : Type} [DecidableEq α] (m : List (α × β)) (k : α) (v : β)
    (h : k ∉ m.map Prod.fst) : mapSet m k v = m ++ [(k, v)] := by
  induction m with
  | nil => rfl
  | cons p t ih =>
    simp only [List.map_cons, List.mem_cons] at h
    push_neg at h
    have hne : ¬(p.1 = k) := fun heq => h.1 heq.symm
    simp [mapSet, hne, ih h.2]

/-- The sensitive-output fold over entries with pairwise-distinct names
(all fresh relative to the accumulator) appends the sensitive bindings. -/
theorem extractSensitiveOutputs_from (outputs : List (String × StateOutput)) :
    ∀ acc : List (String × Bool),
      (outputs.map Prod.fst).Nodup →
      (∀ k, k ∈ outputs.map Prod.fst → k ∉ acc.map Prod.fst) →
      outputs.foldl
          (fun acc2 p => if p.2.sensitive then mapSet acc2 p.1 true else acc2) acc =
        acc ++ outputs.filterMap
          (fun p => if p.2.sensitive then some (p.1, true) else none) := by
  induction outputs with
  | nil => intro acc _ _; simp
  | cons p t ih =>
    intro acc hnd hdisj
    simp only [List.map_cons, List.nodup_cons] at hnd
    by_cases hs : p.2.sensitive
    · rw [List.foldl_cons, if_pos hs,
        mapSet_of_not_mem acc p.1 true (hdisj p.1 (by simp))]
      rw [ih (acc ++ [(p.1, true)]) hnd.2 ?fresh]
      · simp [List.filterMap_cons, hs, List.append_assoc]
      case fresh =>
        intro k hk
        simp only [List.map_append, List.mem_append, List.map_cons, List.map_nil]
        rintro (hka | hk1)
        · exact hdisj k (by simp [hk]) hka
        · simp only [List.mem_singleton] at hk1
          subst hk1
          exact hnd.1 hk
    · rw [List.foldl_cons, if_neg hs]
      rw [ih acc hnd.2 (fun k hk => hdisj k (by simp [hk]))]
      simp [List.filterMap_cons, hs]

/-- With pairwise-distinct output names (a JSON object),
`extractSensitiveOutputs` is the filtered list of sensitive bindings. -/
theorem extractSensitiveOutputs_of_nodup (outputs : List (String × StateOutput))
    (h : (outputs.map Prod.fst).Nodup) :
    extractSensitiveOutputs outputs =
      outputs.filterMap (fun p => if p.2.sensitive then some (p.1, true) else none) := by
  have hfrom := extractSensitiveOutputs_from outputs [] h (by simp)
  simpa [extractSensitiveOutputs] using hfrom

/-- C7: for every tfstate Read whose `terraform show -json` run succeeds
and parses, the stored resource_count is the number of root-module
resources, resource_types / providers are the distinct resource types /
distinct prefixes before the first underscore, modules is the empty root
address plus the child-module addresses, and sensitive_outputs maps
exactly the sensitive output names to true. -/
theorem c7_tfstate_read (execr : ExecResult) (parse : String → Except String TfState)
    (st : TfState) (hparse : parse execr.stdout = Except.ok st)
    (houts : (st.outputs.map Prod.fst).Nodup) :
    ∃ s, (tfstateRead (ExecOutcome.ok execr) parse).state = some s ∧
      s.resourceCount = some (st.rootModule.resources.length : Int) ∧
      (∃ tl, s.resourceTypes = some tl ∧ tl.Nodup ∧
        ∀ t, t ∈ tl ↔ t ∈ st.rootModule.resources.map StateResource.type) ∧
      (∃ pl, s.providers = some pl ∧ pl.Nodup ∧
        ∀ q, q ∈ pl ↔ q ∈ st.rootModule.resources.map (fun r => splitN2First r.type)) ∧
      (∃ ml, s.modules = some ml ∧ ml.Nodup ∧
        ∀ a, a ∈ ml ↔ a = "" ∨ a ∈ st.rootModule.childModules.map ChildModule.address) ∧
      (∃ sl, s.sensitiveOutputs = some sl ∧
        ∀ k b, (k, b) ∈ sl ↔
          b = true ∧ ∃ o2, (k, o2) ∈ st.outputs ∧ o2.sensitive = true) := by
  have hinfo := foldl_insertKey_pair st.rootModule.resources ([], [])
  have hred : (tfstateRead (ExecOutcome.ok execr) parse).state =
      some ⟨some true, some execr.stdout,
            some (extractResourceInfo st.rootModule.resources).1,
            some (st.rootModule.resources.length : Int),
            some (extractResourceInfo st.rootModule.resources).2,
            some (extractModuleNames st.rootModule),
            some (extractSensitiveOutputs st.outputs)⟩ := by
    simp [tfstateRead, hparse]
  refine ⟨_, hred, rfl, ?_, ?_, ?_, ?_⟩
  · refine ⟨_, rfl, ?_, ?_⟩
    · rw [extractResourceInfo, hinfo]
      exact nodup_foldl_insertKey _ _ _ List.nodup_nil
    · intro t
      rw [extractResourceInfo, hinfo]
      simp [mem_foldl_insertKey StateResource.type]
  · refine ⟨_, rfl, ?_, ?_⟩
    · rw [extractResourceInfo, hinfo]
      exact nodup_foldl_insertKey _ _ _ List.nodup_nil
    · intro q
      rw [extractResourceInfo, hinfo]
      simp [mem_foldl_insertKey (fun r : StateResource => splitN2First r.type)]
  · refine ⟨_, rfl, ?_, ?_⟩
    · exact nodup_foldl_insertKey ChildModule.address _ _ (by simp)
    · intro a
      rw [extractModuleNames]
      simp [mem_foldl_insertKey ChildModule.address]
  · refine ⟨_, rfl, ?_⟩
    intro k b
    rw [extractSensitiveOutputs_of_nodup st.outputs houts]
    simp only [List.mem_filterMap]
    constructor
    · rintro ⟨⟨p1, p2⟩, hp, hsel⟩
      by_cases hs : p2.sensitive <;> simp [hs] at hsel
      obtain ⟨rfl, rfl⟩ := hsel
      exact ⟨rfl, p2, hp, hs⟩
    · rintro ⟨rfl, o2, ho2, hs⟩
      exact ⟨(k, o2), ho2, by simp [hs]⟩

/-- Witness for C7 at a concrete one-resource, one-module state. -/
theorem c7_witness :
    ∃ s, (tfstateRead (ExecOutcome.ok ⟨"{}", "", 0⟩)
        (fun _ => Except.ok ⟨⟨[⟨"aws_instance"⟩], [⟨"module.a"⟩]⟩,
          [("secret", ⟨true⟩), ("plain", ⟨false⟩)]⟩)).state = some s ∧
      s.resourceCount =
        some (([⟨"aws_instance"⟩] : List StateResource).length : Int) ∧
      (∃ tl, s.resourceTypes = some tl ∧ tl.Nodup ∧
        ∀ t, t ∈ tl ↔
          t ∈ ([⟨"aws_instance"⟩] : List StateResource).map StateResource.type) ∧
      (∃ pl, s.providers = some pl ∧ pl.Nodup ∧
        ∀ q, q ∈ pl ↔
          q ∈ ([⟨"aws_instance"⟩] : List StateResource).map (fun r => splitN2First r.type)) ∧
      (∃ ml, s.modules = some ml ∧ ml.Nodup ∧
        ∀ a, a ∈ ml ↔ a = "" ∨
          a ∈ ([⟨"module.a"⟩] : List ChildModule).map ChildModule.address) ∧
      (∃ sl, s.sensitiveOutputs = some sl ∧
        ∀ k b, (k, b) ∈ sl ↔
          b = true ∧ ∃ o2, (k, o2) ∈
            ([("secret", ⟨true⟩), ("plain", ⟨false⟩)] : List (String × StateOutput)) ∧
              o2.sensitive = true) :=
  c7_tfstate_read ⟨"{}", "", 0⟩
    (fun _ => Except.ok ⟨⟨[⟨"aws_instance"⟩], [⟨"module.a"⟩]⟩,
      [("secret", ⟨true⟩), ("plain", ⟨false⟩)]⟩)
    ⟨⟨[⟨"aws_instance"⟩], [⟨"module.a"⟩]⟩, [("secret", ⟨true⟩), ("plain", ⟨false⟩)]⟩
    rfl (by decide)

/-- Masking commutes with Go map assignment (the assigned value is
masked like every other). -/
theorem maskVars_mapSet (m : List (String × String)) (k v : String) :
    maskVars (mapSet m k v) = mapSet (maskVars m) k "<REDACTED>" := by
  induction m with
  | nil => rfl
  | cons p t ih =>
    by_cases h : p.1 = k
    · simp [mapSet, maskVars, h]
    · have ih2 : List.map (fun q => (q.1, "<REDACTED>")) (mapSet t k v) =
          mapSet (List.map (fun q => (q.1, "<REDACTED>")) t) k "<REDACTED>" := by
        simpa [maskVars] using ih
      simp [mapSet, maskVars, h, ih2]

/-- The masked environment map is determined by the parsed variable
names alone. -/
theorem foldl_envStep_mask (env : List String) :
    ∀ acc : List (String × String),
      maskVars (env.foldl envStep acc) =
        ((env.filterMap goCut).map Prod.fst).foldl
          (fun m k => mapSet m k "<REDACTED>") (maskVars acc) := by
  induction env with
  | nil => intro acc; rfl
  | cons e t ih =>
    intro acc
    rcases h : goCut e with _ | ⟨k, v⟩
    · simp only [List.foldl_cons, envStep, h, List.filterMap_cons]
      exact ih acc
    · simp only [List.foldl_cons, envStep, h, List.filterMap_cons, List.map_cons]
      rw [ih (mapSet acc k v), maskVars_mapSet]

/-- Masked form of `buildEnvMap`, as a fold over the parsed names. -/
theorem mask_buildEnvMap (env : List String) :
    maskVars (buildEnvMap env) =
      ((env.filterMap goCut).map Prod.fst).foldl
        (fun m k => mapSet m k "<REDACTED>") [] := by
  simpa [buildEnvMap, maskVars] using foldl_envStep_mask env []

/-- The environment fold over entries with pairwise-distinct parsed
names (all fresh relative to the accumulator) appends the parsed
bindings. -/
theorem buildEnvMap_from (env : List String) :
    ∀ acc : List (String × String),
      ((env.filterMap goCut).map Prod.fst).Nodup →
      (∀ k, k ∈ (env.filterMap goCut).map Prod.fst → k ∉ acc.map Prod.fst) →
      env.foldl envStep acc = acc ++ env.filterMap goCut := by
  induction env with
  | nil => intro acc _ _; simp
  | cons e t ih =>
    intro acc hnd hdisj
    rcases h : goCut e with _ | ⟨k, v⟩
    · simp only [List.foldl_cons, envStep, h]
      rw [ih acc (by simpa [List.filterMap_cons, h] using hnd)
          (fun k2 hk2 => hdisj k2 (by simp [List.filterMap_cons, h, hk2]))]
      simp [List.filterMap_cons, h]
    · have hnd2 : (k ∉ ((t.filterMap goCut).map Prod.fst)) ∧
          ((t.filterMap goCut).map Prod.fst).Nodup := by
        simpa [List.filterMap_cons, h] using hnd
      simp only [List.foldl_cons, envStep, h]
      rw [mapSet_of_not_mem acc k v
          (hdisj k (by simp [List.filterMap_cons, h]))]
      rw [ih (acc ++ [(k, v)]) hnd2.2 ?fresh]
      · simp [List.filterMap_cons, h, List.append_assoc]
      case fresh =>
        intro k2 hk2
        simp only [List.map_append, List.mem_append, List.map_cons, List.map_nil]
        rintro (hka | hk1)
        · exact hdisj k2 (by simp [List.filterMap_cons, h, hk2]) hka
        · simp only [List.mem_singleton] at hk1
          subst hk1
          exact hnd2.1 hk2

/-- With pairwise-distinct parsed names (as every OS environment has),
`buildEnvMap` is exactly the list of parsed name/value bindings. -/
theorem buildEnvMap_of_nodup (env : List String)
    (h : ((env.filterMap goCut).map Prod.fst).Nodup) :
    buildEnvMap env = env.filterMap goCut := by
  simpa [buildEnvMap] using buildEnvMap_from env [] h (by simp)

/-- C8: with mask_values unset or true, every stored value is
"<REDACTED>", and the whole Read result is determined by the parsed
variable names alone — two environments with the same names but
different values give identical output; with mask_values=false the
stored map is exactly the parsed name/value bindings. -/
theorem c8_env_dump_masking (maskValues : Option Bool) (env env2 : List String) :
    ((maskValues = none ∨ maskValues = some true) →
      (∀ st, (envDumpRead maskValues env).state = some st →
        ∀ p ∈ st.vars, p.2 = "<REDACTED>") ∧
      ((env.filterMap goCut).map Prod.fst = (env2.filterMap goCut).map Prod.fst →
        envDumpRead maskValues env = envDumpRead maskValues env2)) ∧
    (((env.filterMap goCut).map Prod.fst).Nodup →
      (envDumpRead (some false) env).state = some ⟨env.filterMap goCut, "env_dump"⟩) := by
  constructor
  · intro hmv
    have hb : maskValues.getD true = true := by rcases hmv with rfl | rfl <;> rfl
    constructor
    · intro st hst p hp
      simp only [envDumpRead, hb, if_true, Option.some.injEq] at hst
      subst hst
      simp only [maskVars, List.mem_map] at hp
      obtain ⟨q, _, rfl⟩ := hp
      rfl
    · intro hnames
      simp only [envDumpRead, hb, if_true]
      rw [mask_buildEnvMap env, hnames, mask_buildEnvMap env2]
  · intro hnd
    simp [envDumpRead, buildEnvMap_of_nodup env hnd]

/-- Witness for C8: two concrete environments with equal names and
different values produce identical masked output. -/
theorem c8_witness :
    ((["A=1", "B=2"] : List String).filterMap goCut).map Prod.fst =
      ((["A=x", "B=y"] : List String).filterMap goCut).map Prod.fst ∧
    envDumpRead none ["A=1", "B=2"] = envDumpRead none ["A=x", "B=y"] :=
  ⟨by decide,
   ((c8_env_dump_masking none ["A=1", "B=2"] ["A=x", "B=y"]).1 (Or.inl rfl)).2 (by decide)⟩

end Terrapwner
